import Mathlib

/-!
Verification of the minecraft-pdb-mgr reconciler (src/main.rs).

The program is a sidecar that polls a Minecraft server for player counts and
patches a Kubernetes PodDisruptionBudget's spec.maxUnavailable field: 0 while
players are present (evictions blocked), 1 while the server is empty
(evictions allowed).

Modelling conventions:
- Rust `u32`/`u16` counts become `Nat` (all relevant values are nonnegative and
  no arithmetic in the modelled code can overflow a u32: the only operations
  are casts to f64 and comparisons).
- `f64` values (`min_players_pct`, the threshold computation
  `Percentage::from_decimal(pct).apply_to(max)` which the `percentage` crate
  implements as plain multiplication, and the comparison
  `f64::from(players_online) >= players_needed`) are modelled exactly over `ℚ`.
  Every concrete value used in the theorems below (halves, three-halves, small
  integers and their products) is exactly representable in f64 and the modelled
  operations on them are exact in f64, so the rational model agrees with the
  floating-point computation at every input considered.
- The two external effectful calls (the server probe and the Kubernetes patch
  call) are modelled by explicit inputs: a `ProbeResult` and a Boolean oracle
  saying whether the patch request succeeds.
- The Kubernetes error type and `anyhow` errors are modelled as `String`.
-/

namespace McPdbMgr

/-- k8s `IntOrString`: the type of the PodDisruptionBudget `maxUnavailable`
field, either an integer or a string (percentage). -/
inductive IntOrString where
  | int (n : Int)
  | str (s : String)
deriving DecidableEq

/-- The part of `PodDisruptionBudgetSpec` the program touches: the optional
`max_unavailable` field (`v.spec...max_unavailable` in main.rs line 159). -/
structure PodDisruptionBudgetSpec where
  max_unavailable : Option IntOrString
deriving DecidableEq

/-- The part of a `PodDisruptionBudget` object the program touches: its
optional `spec`. -/
structure PodDisruptionBudget where
  spec : Option PodDisruptionBudgetSpec
deriving DecidableEq

/-- Result of one occupancy probe (`get_server_player_info`, main.rs lines
41-48): online and max player counts, or an opaque failure (timeout,
connection error, malformed response), carried as a message string. -/
inductive ProbeResult where
  | ok (players_online players_max : Nat)
  | err (msg : String)
deriving DecidableEq

/-- Threshold value `players_needed` (main.rs lines 66-74): if
`min_players_pct > 0.0` the percentage applied to `players_max`
(`Percentage::from_decimal(pct).apply_to(max)`, i.e. `max * pct`), otherwise
the absolute `min_players`. -/
def players_needed (min_players : Nat) (min_players_pct : ℚ)
    (players_max : Nat) : ℚ :=
  if min_players_pct > 0 then (players_max : ℚ) * min_players_pct
  else (min_players : ℚ)

/-- The derived condition (main.rs line 75):
`f64::from(players_online) >= players_needed`. -/
def has_players (min_players : Nat) (min_players_pct : ℚ)
    (players_online players_max : Nat) : Bool :=
  decide ((players_online : ℚ) ≥
    players_needed min_players min_players_pct players_max)

/-- A JSON value, enough to express the patch body built at main.rs
lines 88-92. -/
inductive Json where
  | num (n : Nat)
  | obj (fields : List (String × Json))

/-- The `kube::api::Patch` variants. The program only ever uses `Merge`. -/
inductive PatchKind where
  | apply
  | json
  | merge
  | strategic
deriving DecidableEq

/-- A patch request: its kind and its JSON body. -/
structure Patch where
  kind : PatchKind
  body : Json

/-- The patch built at main.rs lines 88-92:
`Patch::Merge(json!({"spec": {"maxUnavailable": u32::from(!has_players)}}))`.
`u32::from(!b)` is 0 when `b` is true and 1 when `b` is false. -/
def pdb_patch (has_players : Bool) : Patch :=
  ⟨PatchKind.merge,
    Json.obj [("spec",
      Json.obj [("maxUnavailable", Json.num (if has_players then 0 else 1))])]⟩

/-- Observable outcome of one call to `try_update_pdb`: the value of
`last_has_players` after the call, the patch request issued during the call
(if any), and the returned `Result<()>`. -/
structure CycleOutcome where
  last_has_players : Bool
  issued_patch : Option Patch
  result : Except String Unit

/-- Shallow embedding of `try_update_pdb` (main.rs lines 50-104).
`probe` stands for the awaited result of `get_server_player_info`;
`patch_succeeds` is the oracle for whether `api.patch(...)` returns `Ok`. -/
def try_update_pdb (min_players : Nat) (min_players_pct : ℚ)
    (probe : ProbeResult) (patch_succeeds : Bool)
    (last_has_players : Bool) : CycleOutcome :=
  match probe with
  | ProbeResult.err e =>
      ⟨last_has_players, none,
        Except.error ("Failed to get server player count: " ++ e)⟩
  | ProbeResult.ok players_online players_max =>
      let hp := has_players min_players min_players_pct players_online
        players_max
      if hp = last_has_players then
        ⟨last_has_players, none, Except.ok ()⟩
      else if patch_succeeds then
        ⟨hp, some (pdb_patch hp), Except.ok ()⟩
      else
        ⟨last_has_players, some (pdb_patch hp),
          Except.error "Failed to patch PodDisruptionBudget"⟩

/-- Startup seeding of `last_has_players` (main.rs lines 149-163):
`pdb.map_or_else(|_| false, |v| matches!(v.spec...max_unavailable,
Some(IntOrString::Int(0))))`. -/
def seed_last_has_players (pdb : Except String PodDisruptionBudget) : Bool :=
  match pdb with
  | Except.error _ => false
  | Except.ok v =>
      match v.spec.bind (fun s => s.max_unavailable) with
      | some (IntOrString.int 0) => true
      | _ => false

/-- Field lookup in a JSON object. -/
def Json.lookup (j : Json) (k : String) : Option Json :=
  match j with
  | Json.obj fields => (fields.find? (fun kv => kv.fst == k)).map Prod.snd
  | _ => none

/-- The `spec.maxUnavailable` value a patch body sets, if any. -/
def patch_max_unavailable (p : Patch) : Option Nat :=
  match (p.body.lookup "spec").bind (fun s => s.lookup "maxUnavailable") with
  | some (Json.num n) => some n
  | _ => none

/-- Kubernetes-side effect of a successfully applied merge patch on the
remote `maxUnavailable` field: the field named in the patch body is
overwritten, everything else is untouched. -/
def apply_merge_patch (remote : Option IntOrString) (p : Patch) :
    Option IntOrString :=
  match patch_max_unavailable p with
  | some n => some (IntOrString.int (n : Int))
  | none => remote

/-- Joint state of the process and the remote object: the local
`last_has_players` Boolean and the remote `maxUnavailable` field. The model
has no external actor: the remote field changes only when a patch issued by
the program is applied. -/
structure World where
  last_has_players : Bool
  remote_max_unavailable : Option IntOrString
deriving DecidableEq

/-- Input consumed by one reconciliation cycle: the probe result and whether
the Kubernetes API accepts a patch request made this cycle. -/
structure CycleInput where
  probe : ProbeResult
  patch_succeeds : Bool

/-- One reconciliation cycle acting on the joint state: runs
`try_update_pdb` and, when a patch request was issued and accepted, applies
it to the remote field. -/
def cycle_step (min_players : Nat) (min_players_pct : ℚ)
    (input : CycleInput) (w : World) : World × CycleOutcome :=
  let out := try_update_pdb min_players min_players_pct input.probe
    input.patch_succeeds w.last_has_players
  let remote :=
    match out.issued_patch with
    | some p =>
        if input.patch_succeeds then
          apply_merge_patch w.remote_max_unavailable p
        else w.remote_max_unavailable
    | none => w.remote_max_unavailable
  (⟨out.last_has_players, remote⟩, out)

/-- The invariant of §3 of the design: the local `last_has_players` agrees
with the remote eviction allowance, `true ↔ maxUnavailable = 0` and
`false ↔ maxUnavailable = 1`. -/
def corresponds (w : World) : Prop :=
  w.remote_max_unavailable =
    some (IntOrString.int (if w.last_has_players then 0 else 1))

instance (w : World) : Decidable (corresponds w) := by
  unfold corresponds; infer_instance

/-- Model of the `MIN_PLAYERS_PERCENT` startup configuration (main.rs lines
122-127): an absent variable defaults to 0.0, a string that fails to parse as
f64 aborts startup, and any value that parses is accepted as-is — there is no
range check. The argument models `std::env::var` composed with `parse`:
`none` for an unset variable, `some none` for a set variable that fails to
parse, `some (some v)` for one that parses to `v`. -/
def min_players_pct_from_env (envVar : Option (Option ℚ)) : Except String ℚ :=
  match envVar with
  | none => Except.ok 0
  | some none => Except.error "MIN_PLAYERS_PERCENT conversion to f64 failed!"
  | some (some v) => Except.ok v

end McPdbMgr

namespace McPdbMgr

/-! ### Helper lemmas -/

/-- A successfully applied `pdb_patch` sets the remote field to the integer
the patch body carries. -/
theorem apply_merge_patch_pdb_patch (remote : Option IntOrString) (b : Bool) :
    apply_merge_patch remote (pdb_patch b) =
      some (IntOrString.int (if b then 0 else 1)) := by
  cases b <;> rfl

end McPdbMgr

namespace McPdbMgr

/-- C2: for every cycle where the computed `has_players` equals the current
Last-Known State, no patch call is issued and the cycle returns success with
Last-Known State unchanged (main.rs lines 82-85). -/
theorem C2_skip_no_patch (min_players : Nat) (min_players_pct : ℚ)
    (players_online players_max : Nat)
    (patch_succeeds last_has_players : Bool)
    (h : has_players min_players min_players_pct players_online players_max
      = last_has_players) :
    try_update_pdb min_players min_players_pct
        (ProbeResult.ok players_online players_max) patch_succeeds
        last_has_players
      = ⟨last_has_players, none, Except.ok ()⟩ := by
  simp [try_update_pdb, h]

/-- Witness for C2: an empty server (0 of 10 online, absolute minimum 1)
with Last-Known State already false is a successful no-op. -/
theorem C2_skip_no_patch_witness :
    has_players 1 0 0 10 = false
    ∧ try_update_pdb 1 0 (ProbeResult.ok 0 10) true false
      = ⟨false, none, Except.ok ()⟩ := by
  have h : has_players 1 0 0 10 = false := by
    norm_num [has_players, players_needed]
  exact ⟨h, C2_skip_no_patch 1 0 0 10 true false h⟩

/-- C3: for every cycle that attempts a patch (computed condition differs
from Last-Known State): a failing patch call leaves Last-Known State
unchanged and the cycle reports an error; a succeeding patch call sets
Last-Known State to the newly computed `has_players` and the cycle reports
success (main.rs lines 94-103). -/
theorem C3_patch_commit (min_players : Nat) (min_players_pct : ℚ)
    (players_online players_max : Nat) (last_has_players : Bool)
    (h : has_players min_players min_players_pct players_online players_max
      ≠ last_has_players) :
    ((try_update_pdb min_players min_players_pct
        (ProbeResult.ok players_online players_max) false
        last_has_players).last_has_players = last_has_players
      ∧ ∃ e, (try_update_pdb min_players min_players_pct
          (ProbeResult.ok players_online players_max) false
          last_has_players).result = Except.error e)
    ∧ ((try_update_pdb min_players min_players_pct
        (ProbeResult.ok players_online players_max) true
        last_has_players).last_has_players
          = has_players min_players min_players_pct players_online players_max
      ∧ (try_update_pdb min_players min_players_pct
          (ProbeResult.ok players_online players_max) true
          last_has_players).result = Except.ok ()) := by
  simp [try_update_pdb, h]

/-- Witness for C3: 5 of 10 players online against absolute minimum 1, with
Last-Known State false, attempts a patch; both patch outcomes behave as
stated. -/
theorem C3_patch_commit_witness :
    has_players 1 0 5 10 ≠ false
    ∧ (try_update_pdb 1 0 (ProbeResult.ok 5 10) false
        false).last_has_players = false
    ∧ (try_update_pdb 1 0 (ProbeResult.ok 5 10) true
        false).last_has_players = has_players 1 0 5 10 := by
  have h : has_players 1 0 5 10 ≠ false := by
    norm_num [has_players, players_needed]
  have hc := C3_patch_commit 1 0 5 10 false h
  exact ⟨h, hc.1.1, hc.2.1⟩

/-- C4: the required threshold is `percentage * max` whenever the configured
percentage is positive (and the absolute `min_players` is then ignored
entirely), the absolute minimum otherwise; `has_players` holds exactly when
`online >= required`, equality included (main.rs lines 66-75). -/
theorem C4_threshold_policy (min_players : Nat) (min_players_pct : ℚ)
    (players_online players_max : Nat) :
    (min_players_pct > 0 →
      players_needed min_players min_players_pct players_max
        = min_players_pct * (players_max : ℚ)
      ∧ ∀ min_players2 : Nat,
          has_players min_players2 min_players_pct players_online players_max
            = has_players min_players min_players_pct players_online
                players_max)
    ∧ (¬ min_players_pct > 0 →
        players_needed min_players min_players_pct players_max
          = (min_players : ℚ))
    ∧ (has_players min_players min_players_pct players_online players_max
        = true
      ↔ (players_online : ℚ)
          ≥ players_needed min_players min_players_pct players_max) := by
  refine ⟨fun hpos => ⟨?_, fun min_players2 => ?_⟩, fun hneg => ?_, ?_⟩
  · simp [players_needed, if_pos hpos, mul_comm]
  · simp [has_players, players_needed, if_pos hpos]
  · simp [players_needed, if_neg hneg]
  · simp [has_players]

/-- Witness for C4: the spec scenario max=10, percent=0.5, online=5 gives
required 5 and a satisfied condition at the boundary. -/
theorem C4_threshold_policy_witness :
    players_needed 7 (1/2) 10 = (1/2 : ℚ) * 10
    ∧ has_players 7 (1/2) 5 10 = has_players 1 (1/2) 5 10
    ∧ (has_players 1 (1/2) 5 10 = true ↔ (5 : ℚ) ≥ players_needed 1 (1/2) 10) := by
  have h7 := C4_threshold_policy 7 (1/2) 5 10
  have h1 := C4_threshold_policy 1 (1/2) 5 10
  have hpos : (1/2 : ℚ) > 0 := by norm_num
  exact ⟨(h7.1 hpos).1, (h7.1 hpos).2 1 ▸ ((h1.1 hpos).2 7).symm ▸ rfl, h1.2.2⟩

/-- C5: startup seeding (main.rs lines 149-163) yields true exactly when the
read succeeded and the object carries `maxUnavailable` equal to the integer
0; any other value (1, another integer, a string/percentage, an absent field
or spec) and any read failure seeds false. -/
theorem C5_seed_iff (res : Except String PodDisruptionBudget) :
    seed_last_has_players res = true
      ↔ ∃ v, res = Except.ok v
          ∧ v.spec.bind (fun s => s.max_unavailable)
            = some (IntOrString.int 0) := by
  cases res with
  | error e => simp [seed_last_has_players]
  | ok v =>
    simp only [seed_last_has_players]
    constructor
    · intro h
      refine ⟨v, rfl, ?_⟩
      revert h
      split
      · rename_i heq
        exact fun _ => heq
      · exact fun h => absurd h (by simp)
    · rintro ⟨v2, hv, hb⟩
      injection hv with hv2
      subst hv2
      rw [hb]
      rfl

/-- C6: every patch issued is a merge patch whose body is exactly the object
`{spec: {maxUnavailable: v}}` with `v = 0` when `has_players` is true and
`v = 1` when it is false — no other field appears in the body, and the patch
is only ever produced from a successful probe (main.rs lines 88-92). -/
theorem C6_patch_shape (min_players : Nat) (min_players_pct : ℚ)
    (probe : ProbeResult) (patch_succeeds last_has_players : Bool) (p : Patch)
    (h : (try_update_pdb min_players min_players_pct probe patch_succeeds
      last_has_players).issued_patch = some p) :
    p.kind = PatchKind.merge
    ∧ ∃ players_online players_max,
        probe = ProbeResult.ok players_online players_max
        ∧ p.body = Json.obj [("spec", Json.obj [("maxUnavailable",
            Json.num (if has_players min_players min_players_pct
              players_online players_max then 0 else 1))])] := by
  cases probe with
  | err e => simp [try_update_pdb] at h
  | ok players_online players_max =>
    by_cases heq : has_players min_players min_players_pct players_online
        players_max = last_has_players
    · simp [try_update_pdb, heq] at h
    · have hp : p = pdb_patch (has_players min_players min_players_pct
          players_online players_max) := by
        cases patch_succeeds <;>
          simpa [try_update_pdb, heq, eq_comm] using h
      subst hp
      exact ⟨rfl, players_online, players_max, rfl, rfl⟩

/-- Witness for C6: the first patching cycle of the spec scenario (5 of 10
online, state seeded false) issues the merge patch setting
`maxUnavailable` to 0. -/
theorem C6_patch_shape_witness :
    (try_update_pdb 1 0 (ProbeResult.ok 5 10) true false).issued_patch
      = some (pdb_patch true)
    ∧ (pdb_patch true).kind = PatchKind.merge
    ∧ (pdb_patch true).body = Json.obj [("spec", Json.obj [("maxUnavailable",
        Json.num (if has_players 1 0 5 10 then 0 else 1))])] := by
  have hhp : has_players 1 0 5 10 = true := by
    norm_num [has_players, players_needed]
  have h : (try_update_pdb 1 0 (ProbeResult.ok 5 10) true
      false).issued_patch = some (pdb_patch true) := by
    simp [try_update_pdb, hhp]
  have hc := C6_patch_shape 1 0 (ProbeResult.ok 5 10) true false
    (pdb_patch true) h
  exact ⟨h, hc.1, by simp [pdb_patch, hhp]⟩

/-- C7: a cycle whose probe fails ends early with zero side effects: the
Last-Known State is unchanged, no patch is issued, an error is reported, and
the outcome does not depend on the threshold policy at all (the condition is
never evaluated) (main.rs lines 59-65). -/
theorem C7_probe_failure_no_effect (min_players min_players2 : Nat)
    (min_players_pct min_players_pct2 : ℚ) (e : String)
    (patch_succeeds last_has_players : Bool) :
    (try_update_pdb min_players min_players_pct (ProbeResult.err e)
        patch_succeeds last_has_players).last_has_players = last_has_players
    ∧ (try_update_pdb min_players min_players_pct (ProbeResult.err e)
        patch_succeeds last_has_players).issued_patch = none
    ∧ (∃ msg, (try_update_pdb min_players min_players_pct (ProbeResult.err e)
        patch_succeeds last_has_players).result = Except.error msg)
    ∧ try_update_pdb min_players min_players_pct (ProbeResult.err e)
        patch_succeeds last_has_players
      = try_update_pdb min_players2 min_players_pct2 (ProbeResult.err e)
        patch_succeeds last_has_players :=
  ⟨rfl, rfl, ⟨_, rfl⟩, rfl⟩

/-- C8: with a percentage policy and `max = 0`, the required threshold is 0
and `has_players` is true for every online count (main.rs lines 66-75). -/
theorem C8_zero_max_percentage (min_players : Nat) (min_players_pct : ℚ)
    (players_online : Nat) (h : min_players_pct > 0) :
    players_needed min_players min_players_pct 0 = 0
    ∧ has_players min_players min_players_pct players_online 0 = true := by
  constructor
  · simp [players_needed, if_pos h]
  · simp [has_players, players_needed, if_pos h]

/-- Witness for C8: a 50% policy with max 0 is satisfied even by 0 players
online. -/
theorem C8_zero_max_percentage_witness :
    players_needed 1 (1/2) 0 = 0 ∧ has_players 1 (1/2) 0 0 = true :=
  C8_zero_max_percentage 1 (1/2) 0 (by norm_num)

end McPdbMgr

namespace McPdbMgr

/-- C1 (counterexample): the claimed equality between Last-Known State and
the remote eviction allowance can fail after a successfully completing
cycle, with no external actor mutating the field between cycles. Start from
a remote object whose `maxUnavailable` is the string "50%": seeding reads it
and records false (main.rs lines 152-163); a first cycle probing an empty
server (0 of 10 online, absolute minimum 1) computes `has_players = false`,
equal to the seeded state, takes the skip branch and returns success — yet
the remote field still holds "50%", not the integer 1 that
`last_has_players = false` is claimed to correspond to. -/
theorem C1_counterexample :
    seed_last_has_players
        (Except.ok ⟨some ⟨some (IntOrString.str "50%")⟩⟩) = false
    ∧ (cycle_step 1 0 ⟨ProbeResult.ok 0 10, true⟩
        ⟨false, some (IntOrString.str "50%")⟩).2.result = Except.ok ()
    ∧ ¬ corresponds (cycle_step 1 0 ⟨ProbeResult.ok 0 10, true⟩
        ⟨false, some (IntOrString.str "50%")⟩).1 := by
  refine ⟨rfl, ?_, ?_⟩
  · norm_num [cycle_step, try_update_pdb, has_players, players_needed]
  · norm_num [corresponds, cycle_step, try_update_pdb, has_players,
      players_needed]
    decide

/-- C1 (amended): provided the correspondence between Last-Known State and
the remote eviction allowance already holds when the cycle starts (as it
does after seeding from a remote value of 0 or 1, and after every successful
patch), every cycle that completes successfully — the skip branch included —
re-establishes it: `last_has_players = true` with `maxUnavailable = 0` and
`last_has_players = false` with `maxUnavailable = 1`, no external actor
mutating the field in between (main.rs lines 82-103). -/
theorem C1_correspondence_preserved (min_players : Nat)
    (min_players_pct : ℚ) (input : CycleInput) (w : World)
    (hinv : corresponds w)
    (hok : (cycle_step min_players min_players_pct input w).2.result
      = Except.ok ()) :
    corresponds (cycle_step min_players min_players_pct input w).1 := by
  obtain ⟨probe, patch_succeeds⟩ := input
  obtain ⟨last_has_players, remote⟩ := w
  cases probe with
  | err e => simp [cycle_step, try_update_pdb] at hok
  | ok players_online players_max =>
    by_cases heq : has_players min_players min_players_pct players_online
        players_max = last_has_players
    · simpa [corresponds, cycle_step, try_update_pdb, heq] using hinv
    · cases patch_succeeds with
      | false => simp [cycle_step, try_update_pdb, heq] at hok
      | true =>
        simp [corresponds, cycle_step, try_update_pdb, heq,
          apply_merge_patch_pdb_patch]

/-- Witness for C1 (amended): from the consistent state (false, allowance 1),
a cycle seeing 5 of 10 players online patches successfully and lands in the
consistent state (true, allowance 0). -/
theorem C1_correspondence_preserved_witness :
    corresponds ⟨false, some (IntOrString.int 1)⟩
    ∧ (cycle_step 1 0 ⟨ProbeResult.ok 5 10, true⟩
        ⟨false, some (IntOrString.int 1)⟩).2.result = Except.ok ()
    ∧ corresponds (cycle_step 1 0 ⟨ProbeResult.ok 5 10, true⟩
        ⟨false, some (IntOrString.int 1)⟩).1 := by
  have hinv : corresponds (⟨false, some (IntOrString.int 1)⟩ : World) := by
    simp [corresponds]
  have hok : (cycle_step 1 0 ⟨ProbeResult.ok 5 10, true⟩
      ⟨false, some (IntOrString.int 1)⟩).2.result = Except.ok () := by
    norm_num [cycle_step, try_update_pdb, has_players, players_needed]
  exact ⟨hinv, hok,
    C1_correspondence_preserved 1 0 ⟨ProbeResult.ok 5 10, true⟩
      ⟨false, some (IntOrString.int 1)⟩ hinv hok⟩

/-- C9: after startup seeding, the remote object is never read again. In the
model: the full observable outcome of a cycle, and the resulting local
state, are identical for any two values of the remote field — the decision
to patch or skip depends only on the local Last-Known State and the fresh
probe result. Consequently an externally altered allowance value `r` is
neither detected nor corrected as long as the computed `has_players`
equals the stale local state: the cycle skips and `r` persists unchanged
(main.rs lines 50-104 and 148-163). -/
theorem C9_remote_not_reread (min_players : Nat) (min_players_pct : ℚ)
    (input : CycleInput) (last_has_players : Bool)
    (r r2 : Option IntOrString) :
    ((cycle_step min_players min_players_pct input ⟨last_has_players, r⟩).2
        = (cycle_step min_players min_players_pct input
            ⟨last_has_players, r2⟩).2
      ∧ (cycle_step min_players min_players_pct input
          ⟨last_has_players, r⟩).1.last_has_players
        = (cycle_step min_players min_players_pct input
            ⟨last_has_players, r2⟩).1.last_has_players)
    ∧ (∀ players_online players_max,
        input.probe = ProbeResult.ok players_online players_max →
        has_players min_players min_players_pct players_online players_max
          = last_has_players →
        (cycle_step min_players min_players_pct input
          ⟨last_has_players, r⟩).1.remote_max_unavailable = r) := by
  refine ⟨⟨rfl, rfl⟩, fun players_online players_max hprobe hskip => ?_⟩
  simp [cycle_step, hprobe, try_update_pdb, hskip]

/-- Witness for C9: with the remote field externally set to "50%" (versus
an untouched 1), an empty-server cycle from local state false behaves
identically and leaves the stale "50%" in place. -/
theorem C9_remote_not_reread_witness :
    (cycle_step 1 0 ⟨ProbeResult.ok 0 10, true⟩
        ⟨false, some (IntOrString.str "50%")⟩).2
      = (cycle_step 1 0 ⟨ProbeResult.ok 0 10, true⟩
          ⟨false, some (IntOrString.int 1)⟩).2
    ∧ (cycle_step 1 0 ⟨ProbeResult.ok 0 10, true⟩
        ⟨false, some (IntOrString.str "50%")⟩).1.remote_max_unavailable
      = some (IntOrString.str "50%") := by
  have hskip : has_players 1 0 0 10 = false := by
    norm_num [has_players, players_needed]
  have hc := C9_remote_not_reread 1 0 ⟨ProbeResult.ok 0 10, true⟩ false
    (some (IntOrString.str "50%")) (some (IntOrString.int 1))
  exact ⟨hc.1.1, hc.2 0 10 rfl hskip⟩

/-- C10: the MIN_PLAYERS_PERCENT configuration is not validated against the
documented 0-1 range (main.rs lines 122-127): the value 1.5 parses and is
accepted, startup proceeds, and the resulting threshold exceeds the server
capacity, so `has_players` is false even at full occupancy
(online = max = 10 > 0). -/
theorem C10_no_range_validation :
    min_players_pct_from_env (some (some (3/2))) = Except.ok (3/2)
    ∧ (3/2 : ℚ) > 1
    ∧ players_needed 1 (3/2) 10 = 15
    ∧ players_needed 1 (3/2) 10 > (10 : ℚ)
    ∧ has_players 1 (3/2) 10 10 = false := by
  refine ⟨rfl, by norm_num, ?_, ?_, ?_⟩ <;>
    norm_num [players_needed, has_players]

end McPdbMgr
